import Mathlib

/-!
Shallow embedding of the `analyze-server` backend (src/app.py) in Lean 4.

The repository is a single FastAPI handler.  The domain logic embedded here:
  * `midi_to_note_name` — MIDI number to scientific pitch name (app.py lines 35-39);
  * the note filter/formatter loop of the `analyze` handler (lines 69-80),
    embedded as `detectNotes`;
  * the average-pitch special case (line 93), embedded as `avePitch`;
  * the handler's control flow — temp-file creation/cleanup, stage failures,
    model-output-shape validation, response assembly (lines 47-136) — embedded
    as `analyze` over an `Env` describing what each external collaborator
    (pydub, basic_pitch, librosa, matplotlib, uuid) returns.

Python floats are modelled as `ℚ`; Python `int()` truncation as `int_trunc`;
Python `//` and `%` (floor division, non-negative remainder) as `Int.fdiv`
and `Int.emod`; a raised exception as `Except.error` carrying the message.
-/

/-- The twelve semitone names, `notes` in `midi_to_note_name` (app.py line 36). -/
def noteNames : List String :=
  "C" :: "C#" :: "D" :: "D#" :: "E" :: "F" ::
    "F#" :: "G" :: "G#" :: "A" :: "A#" :: "B" :: []

/-- Python `midi_number % 12` is a non-negative remainder below 12, hence a
valid index into the twelve-element `noteNames`. -/
theorem emod12_lt (m : ℤ) : (m.emod 12).toNat < noteNames.length := by
  have h1 : 0 ≤ m.emod 12 := Int.emod_nonneg m (by decide)
  have h2 : m.emod 12 < 12 := Int.emod_lt_of_pos m (by decide)
  simp only [noteNames, List.length]
  omega

/-- `midi_to_note_name` (app.py lines 35-39): octave is `midi_number // 12 - 1`
(Python floor division, `Int.fdiv`), pitch class is `notes[midi_number % 12]`
(Python non-negative remainder, `Int.emod`), result is the f-string
concatenation of the two. -/
def midi_to_note_name (midi_number : ℤ) : String :=
  let octave := midi_number.fdiv 12 - 1
  let note := noteNames.get ⟨(midi_number.emod 12).toNat, emod12_lt midi_number⟩
  note ++ toString octave

/-- Python `int()` on a float: truncation toward zero. -/
def int_trunc (q : ℚ) : ℤ :=
  if 0 ≤ q then ⌊q⌋ else ⌈q⌉

/-- A raw note event from the transcription model: the 5-tuple destructured as
`start, end, pitch, confidence, _` at app.py line 70.  The fifth component
(pitch-bend data) is unused by the handler. -/
structure RawNoteEvent where
  start_time : ℚ
  end_time : ℚ
  pitch : ℚ
  confidence : ℚ
  extra : List ℤ
deriving DecidableEq, Repr

/-- A detected note as built by the dict literal at app.py lines 74-80. -/
structure DetectedNote where
  start_time : ℚ
  end_time : ℚ
  midi_note : ℤ
  note_name : String
  confidence : ℚ
deriving DecidableEq, Repr

/-- The inclusion predicate of app.py line 73:
`confidence >= 0.6 and dur >= 0.05` with `dur = end - start`. -/
def passesFilter (e : RawNoteEvent) : Bool :=
  decide ((0.6 : ℚ) ≤ e.confidence) && decide ((0.05 : ℚ) ≤ e.end_time - e.start_time)

/-- The dict appended at app.py lines 74-80: times and confidence copied,
`midi_note` is `int(pitch)`, `note_name` is `midi_to_note_name(midi)`. -/
def formatNote (e : RawNoteEvent) : DetectedNote :=
  { start_time := e.start_time
    end_time := e.end_time
    midi_note := int_trunc e.pitch
    note_name := midi_to_note_name (int_trunc e.pitch)
    confidence := e.confidence }

/-- The filter/format loop of app.py lines 69-80: walk the events in order,
appending a formatted note exactly when the predicate holds. -/
def detectNotes : List RawNoteEvent → List DetectedNote
  | [] => []
  | e :: rest =>
    let dur := e.end_time - e.start_time
    let midi := int_trunc e.pitch
    if (0.6 : ℚ) ≤ e.confidence ∧ (0.05 : ℚ) ≤ dur then
      { start_time := e.start_time
        end_time := e.end_time
        midi_note := midi
        note_name := midi_to_note_name midi
        confidence := e.confidence } :: detectNotes rest
    else
      detectNotes rest

/-- The loop is the filter-then-map it reads as. -/
theorem detectNotes_eq_filter_map (l : List RawNoteEvent) :
    detectNotes l = (l.filter passesFilter).map formatNote := by
  induction l with
  | nil => rfl
  | cons e rest ih =>
    by_cases h : (0.6 : ℚ) ≤ e.confidence ∧ (0.05 : ℚ) ≤ e.end_time - e.start_time
    · have hb : passesFilter e = true := by
        simp only [passesFilter, Bool.and_eq_true, decide_eq_true_eq]
        exact h
      simp [detectNotes, h, List.filter_cons, hb, ih, formatNote]
    · have hb : passesFilter e = false := by
        simp only [passesFilter, Bool.and_eq_true, decide_eq_true_eq]
        simpa using h
      simp [detectNotes, h, List.filter_cons, hb, ih]

/-- `pitches[pitches > 0]` (app.py line 93): the strictly positive entries of
the pitch-track matrix, flattened. -/
def positiveEntries (mat : List (List ℚ)) : List ℚ :=
  mat.flatten.filter (fun x => decide (0 < x))

/-- `float(np.mean(pitches[pitches > 0])) if np.any(pitches > 0) else 0.0`
(app.py line 93): the mean of the strictly positive entries, or `0` when
there are none. -/
def avePitch (mat : List (List ℚ)) : ℚ :=
  let pos := positiveEntries mat
  if pos.isEmpty then 0 else pos.sum / pos.length

/-- One element of the tuple returned by `predict` (app.py line 63).  Only the
third element is consumed; it must be iterable as 5-tuples of note events.
Other elements (the output dict, the MIDI object) are `other`. -/
inductive PredictElem where
  | events : List RawNoteEvent → PredictElem
  | other : PredictElem
deriving DecidableEq, Repr

/-- The value returned by `predict`: `isSeq` records whether it is a `list` or
`tuple` (the `isinstance` check at app.py line 64), `elems` its elements. -/
structure ModelOutput where
  isSeq : Bool
  elems : List PredictElem
deriving DecidableEq, Repr

/-- The results of the librosa calls at app.py lines 83-92, as returned by the
external library: `signalLen` is `len(y)` (so `duration = len(y) / 22050`),
`pitchMatrix` is the `piptrack` output. -/
structure LibrosaFeatures where
  tempo : ℚ
  zero_crossings : ℚ
  spectral_centroid : ℚ
  spectral_bandwidth : ℚ
  spectral_rolloff : ℚ
  onset_strength : ℚ
  signalLen : ℕ
  pitchMatrix : List (List ℚ)
deriving DecidableEq, Repr

/-- What each external collaborator does on a given request: `Except.error m`
models the call raising an exception with message `m`. `visHex` is the value
of `uuid.uuid4().hex` for this request (app.py line 109). -/
structure Env where
  copyUpload : Except String Unit
  decodeNormalize : Except String Unit
  predictResult : Except String ModelOutput
  loadFeatures : Except String LibrosaFeatures
  savePlot : Except String Unit
  visHex : String
deriving Repr

/-- The `metrics` dict built at app.py lines 95-106. -/
structure Metrics where
  tempo : ℚ
  duration : ℚ
  sample_rate : ℕ
  zero_crossings : ℚ
  spectral_centroid : ℚ
  spectral_bandwidth : ℚ
  spectral_rolloff : ℚ
  onset_strength : ℚ
  pitch : ℚ
  notes : List DetectedNote
deriving DecidableEq, Repr

/-- The JSON body returned at app.py lines 121-126: the metrics dict
double-nested under `results.results`, plus a top-level `visualization`. -/
structure SuccessBody where
  results_results : Metrics
  visualization : String
deriving DecidableEq, Repr

/-- The HTTP outcome of the handler: a 200 with the success body, or an
`HTTPException`-driven response with a status code and a `detail` string. -/
inductive HttpResponse where
  | ok : SuccessBody → HttpResponse
  | error : ℕ → String → HttpResponse
deriving DecidableEq, Repr

/-- Result of one request: the HTTP response, plus whether the temporary
`.wav` file created at app.py line 52 is still on disk afterwards. -/
structure AnalyzeOutcome where
  response : HttpResponse
  tempFileLeft : Bool
deriving DecidableEq, Repr

/-- The shape check at app.py lines 64-66: `model_output` must be a list or
tuple of length at least 3, else `ValueError("Unexpected prediction output
format")`; on success `note_events = model_output[2]`. -/
def validateModelOutput (mo : ModelOutput) : Except String PredictElem :=
  if h : mo.isSeq = true ∧ 3 ≤ mo.elems.length then
    Except.ok (mo.elems.get ⟨2, h.2⟩)
  else
    Except.error "Unexpected prediction output format"

/-- Iterating `note_events` as 5-tuples (app.py line 70): raises a `TypeError`
if the third model-output element is not such a sequence. -/
def iterateEvents : PredictElem → Except String (List RawNoteEvent)
  | PredictElem.events es => Except.ok es
  | PredictElem.other => Except.error "cannot unpack note events"

/-- The body of the `try:` block at app.py lines 50-126: each stage in order,
short-circuiting on the first raised exception. -/
def analyzeBody (env : Env) : Except String SuccessBody := do
  env.copyUpload
  env.decodeNormalize
  let mo ← env.predictResult
  let third ← validateModelOutput mo
  let events ← iterateEvents third
  let notes := detectNotes events
  let f ← env.loadFeatures
  let metrics : Metrics :=
    { tempo := f.tempo
      duration := (f.signalLen : ℚ) / 22050
      sample_rate := 22050
      zero_crossings := f.zero_crossings
      spectral_centroid := f.spectral_centroid
      spectral_bandwidth := f.spectral_bandwidth
      spectral_rolloff := f.spectral_rolloff
      onset_strength := f.onset_strength
      pitch := avePitch f.pitchMatrix
      notes := notes }
  env.savePlot
  pure { results_results := metrics
         visualization := "/static/plots/" ++ env.visHex ++ ".png" }

/-- The whole handler (app.py lines 47-136).  `NamedTemporaryFile(delete=False)`
creates the file on disk before the body is copied into it; `temp_path` is
assigned only after `copyfileobj` succeeds (line 54); the `except` clause
turns any exception into a 500 `HTTPException` whose detail prefixes the
message with `Analysis failed: ` (line 131); the `finally` clause removes the
file only when `temp_path` is set (lines 133-136). -/
def analyze (env : Env) : AnalyzeOutcome :=
  let temp_path : Option String :=
    match env.copyUpload with
    | Except.ok _ => some "tmp.wav"
    | Except.error _ => none
  let removedInFinally := temp_path.isSome
  let left := !removedInFinally
  match analyzeBody env with
  | Except.ok body => { response := HttpResponse.ok body, tempFileLeft := left }
  | Except.error m =>
      { response := HttpResponse.error 500 ("Analysis failed: " ++ m), tempFileLeft := left }

/-- A non-empty string of lowercase hexadecimal digits, the form of
`uuid.uuid4().hex`. -/
def isHexDigits (s : String) : Bool :=
  !s.isEmpty && s.toList.all (fun c => c.isDigit || ('a' ≤ c && c ≤ 'f'))

/-- C1: a `DetectedNote` appears in the filtered output iff it is the
formatting of an input event whose confidence is at least 0.6 and whose
duration `end_time - start_time` is at least 0.05 (both bounds inclusive);
an empty input, or an input in which every event fails the predicate,
yields the empty output list. -/
theorem detectNotes_mem_iff (l : List RawNoteEvent) :
    (∀ e : RawNoteEvent, passesFilter e = true ↔
      ((0.6 : ℚ) ≤ e.confidence ∧ (0.05 : ℚ) ≤ e.end_time - e.start_time))
    ∧ (∀ n : DetectedNote,
        n ∈ detectNotes l ↔ ∃ e ∈ l, passesFilter e = true ∧ n = formatNote e)
    ∧ detectNotes ([] : List RawNoteEvent) = []
    ∧ ((∀ e ∈ l, passesFilter e = false) → detectNotes l = []) := by
  refine ⟨?_, ?_, rfl, ?_⟩
  · intro e
    simp [passesFilter]
  · intro n
    rw [detectNotes_eq_filter_map]
    simp only [List.mem_map, List.mem_filter]
    constructor
    · rintro ⟨e, ⟨he, hp⟩, hn⟩
      exact ⟨e, he, hp, hn.symm⟩
    · rintro ⟨e, he, hp, hn⟩
      exact ⟨e, ⟨he, hp⟩, hn.symm⟩
  · intro h
    rw [detectNotes_eq_filter_map]
    have : l.filter passesFilter = [] := by
      rw [List.filter_eq_nil_iff]
      intro e he
      simp [h e he]
    rw [this, List.map_nil]

/-- C1 witness: a single event with confidence 0.5 fails the predicate and the
output is empty. -/
theorem detectNotes_mem_iff_witness :
    detectNotes [⟨0, 1, 60, 1/2, []⟩] = [] := by
  refine (detectNotes_mem_iff [⟨0, 1, 60, 1/2, []⟩]).2.2.2 ?_
  intro e he
  simp only [List.mem_singleton] at he
  subst he
  norm_num [passesFilter]

/-- C2: `midi_to_note_name` is total on ℤ; the pitch class is chosen from the
twelve-name cycle by the non-negative remainder `m % 12` (which always lies in
`[0, 12)`), the octave is `⌊m / 12⌋ - 1`, and the documented examples
60 ↦ "C4", 69 ↦ "A4", 21 ↦ "A0" hold. -/
theorem midi_to_note_name_spec :
    (∀ m : ℤ, midi_to_note_name m =
      noteNames.getD (m % 12).toNat "" ++ toString (⌊(m : ℚ) / 12⌋ - 1))
    ∧ (∀ m : ℤ, 0 ≤ m % 12 ∧ m % 12 < 12)
    ∧ midi_to_note_name 60 = "C4"
    ∧ midi_to_note_name 69 = "A4"
    ∧ midi_to_note_name 21 = "A0" := by
  refine ⟨?_, ?_, by decide, by decide, by decide⟩
  · intro m
    have hfl : ⌊(m : ℚ) / 12⌋ = m.fdiv 12 := by
      have h : ((12 : ℚ)) = ((12 : ℕ) : ℚ) := by norm_num
      rw [h, Rat.floor_intCast_div_natCast, Int.fdiv_eq_ediv _ (by norm_num)]
      rfl
    have hidx : m % 12 = m.emod 12 := rfl
    rw [hfl, hidx, midi_to_note_name]
    rw [List.getD_eq_getElem _ _ (emod12_lt m)]
    simp [List.get]
  · intro m
    exact ⟨Int.emod_nonneg m (by norm_num), Int.emod_lt_of_pos m (by norm_num)⟩

/-- C3: each produced note copies `start_time`, `end_time` and `confidence`
unchanged, sets `midi_note` to the truncation of `pitch` toward zero and
`note_name` to its conversion; on the documented input
`[(0.0, 0.2, 60.4, 0.9, _), (0.1, 0.12, 67.0, 0.95, _)]` the output is exactly
`[{start 0.0, end 0.2, midi 60, "C4", confidence 0.9}]`. -/
theorem formatNote_fields_and_example :
    (∀ e : RawNoteEvent, formatNote e =
      { start_time := e.start_time
        end_time := e.end_time
        midi_note := int_trunc e.pitch
        note_name := midi_to_note_name (int_trunc e.pitch)
        confidence := e.confidence })
    ∧ detectNotes [⟨0, 2/10, 604/10, 9/10, []⟩, ⟨1/10, 12/100, 67, 95/100, []⟩] =
        [⟨0, 2/10, 60, "C4", 9/10⟩] := by
  constructor
  · intro e
    rfl
  · have h1 : passesFilter ⟨0, 2/10, 604/10, 9/10, []⟩ = true := by norm_num [passesFilter]
    have h2 : passesFilter ⟨1/10, 12/100, 67, 95/100, []⟩ = false := by norm_num [passesFilter]
    have h3 : int_trunc (604/10) = 60 := by norm_num [int_trunc, Int.floor_eq_iff]
    have h4 : midi_to_note_name 60 = "C4" := by decide
    rw [detectNotes_eq_filter_map]
    simp only [List.filter_cons, h1, h2, if_true, if_false, List.filter_nil, List.map,
      formatNote, h3, h4]

/-- C4: the filter is order-preserving and one-to-zero-or-one — the output is
exactly the passing events, in order, each mapped through `formatNote` — so
the output length is at most the input length, with equality iff every event
passes; as a Lean function it is deterministic and cannot mutate its input. -/
theorem detectNotes_order_length (l : List RawNoteEvent) :
    detectNotes l = (l.filter passesFilter).map formatNote
    ∧ (detectNotes l).length ≤ l.length
    ∧ ((detectNotes l).length = l.length ↔ ∀ e ∈ l, passesFilter e = true) := by
  refine ⟨detectNotes_eq_filter_map l, ?_, ?_⟩
  · rw [detectNotes_eq_filter_map, List.length_map]
    exact List.length_filter_le passesFilter l
  · rw [detectNotes_eq_filter_map, List.length_map]
    constructor
    · intro h
      have hs := List.filter_sublist (l := l) (p := passesFilter)
      have heq := hs.eq_of_length h
      rw [List.filter_eq_self] at heq
      exact heq
    · intro h
      rw [List.filter_eq_self.mpr h]

/-- C4 witness: on a two-event input with one failing event the output length
is 1 and the length equality direction is refuted by evaluation. -/
theorem detectNotes_order_length_witness :
    (detectNotes [⟨0, 2/10, 604/10, 9/10, []⟩, ⟨1/10, 12/100, 67, 95/100, []⟩]).length ≤ 2 :=
  (detectNotes_order_length [⟨0, 2/10, 604/10, 9/10, []⟩, ⟨1/10, 12/100, 67, 95/100, []⟩]).2.1

/-- A bind on `Except` yields `ok` exactly when both halves do. -/
theorem except_bind_ok {α β : Type} (x : Except String α) (f : α → Except String β) (b : β) :
    (x >>= f) = Except.ok b ↔ ∃ a, x = Except.ok a ∧ f a = Except.ok b := by
  cases x <;> simp [Bind.bind, Except.bind]

/-- Characterisation of a successful run of the try-block: every stage
succeeded and the body is the assembled response. -/
theorem analyzeBody_ok_iff (env : Env) (b : SuccessBody) :
    analyzeBody env = Except.ok b ↔
      ∃ mo third events f,
        env.copyUpload = Except.ok () ∧
        env.decodeNormalize = Except.ok () ∧
        env.predictResult = Except.ok mo ∧
        validateModelOutput mo = Except.ok third ∧
        iterateEvents third = Except.ok events ∧
        env.loadFeatures = Except.ok f ∧
        env.savePlot = Except.ok () ∧
        b = { results_results :=
                { tempo := f.tempo
                  duration := (f.signalLen : ℚ) / 22050
                  sample_rate := 22050
                  zero_crossings := f.zero_crossings
                  spectral_centroid := f.spectral_centroid
                  spectral_bandwidth := f.spectral_bandwidth
                  spectral_rolloff := f.spectral_rolloff
                  onset_strength := f.onset_strength
                  pitch := avePitch f.pitchMatrix
                  notes := detectNotes events }
              visualization := "/static/plots/" ++ env.visHex ++ ".png" } := by
  simp only [analyzeBody, except_bind_ok, pure, Except.pure, Except.ok.injEq]
  constructor
  · rintro ⟨u1, hc, u2, hd, mo, hp, third, hv, events, hi, f, hf, u3, hs, hb⟩
    cases u1; cases u2; cases u3
    exact ⟨mo, third, events, f, hc, hd, hp, hv, hi, hf, hs, hb.symm⟩
  · rintro ⟨mo, third, events, f, hc, hd, hp, hv, hi, hf, hs, hb⟩
    exact ⟨(), hc, (), hd, mo, hp, third, hv, events, hi, f, hf, (), hs, hb.symm⟩

/-- The handler returns 200 with body `b` exactly when the try-block
succeeds with `b`. -/
theorem analyze_ok_iff (env : Env) (b : SuccessBody) :
    (analyze env).response = HttpResponse.ok b ↔ analyzeBody env = Except.ok b := by
  unfold analyze
  cases hb : analyzeBody env <;> simp [hb]

/-- When the try-block raises with message `m`, the handler responds with the
500 `HTTPException` carrying `Analysis failed: ` plus the message. -/
theorem analyze_error_response (env : Env) (m : String)
    (h : analyzeBody env = Except.error m) :
    (analyze env).response = HttpResponse.error 500 ("Analysis failed: " ++ m) := by
  simp [analyze, h]

/-- A feature-extraction result used for concrete runs. -/
def featuresOk : LibrosaFeatures :=
  { tempo := 120
    zero_crossings := 0
    spectral_centroid := 1000
    spectral_bandwidth := 1500
    spectral_rolloff := 3000
    onset_strength := 2
    signalLen := 0
    pitchMatrix := [] }

/-- A request on which every external stage succeeds. -/
def envOk : Env :=
  { copyUpload := Except.ok ()
    decodeNormalize := Except.ok ()
    predictResult :=
      Except.ok ⟨true, [PredictElem.other, PredictElem.other, PredictElem.events []]⟩
    loadFeatures := Except.ok featuresOk
    savePlot := Except.ok ()
    visHex := "abc123" }

/-- The response body the handler assembles for `envOk`. -/
def bodyOk : SuccessBody :=
  { results_results :=
      { tempo := 120
        duration := 0
        sample_rate := 22050
        zero_crossings := 0
        spectral_centroid := 1000
        spectral_bandwidth := 1500
        spectral_rolloff := 3000
        onset_strength := 2
        pitch := 0
        notes := [] }
    visualization := "/static/plots/abc123.png" }

/-- Concrete run: `envOk` yields a 200 with `bodyOk`. -/
theorem analyze_envOk : (analyze envOk).response = HttpResponse.ok bodyOk := by
  rw [analyze_ok_iff, analyzeBody_ok_iff]
  refine ⟨⟨true, [PredictElem.other, PredictElem.other, PredictElem.events []]⟩,
    PredictElem.events [], [], featuresOk, rfl, rfl, rfl, rfl, rfl, rfl, rfl, ?_⟩
  simp only [bodyOk, featuresOk, envOk, avePitch, positiveEntries, detectNotes,
    SuccessBody.mk.injEq, Metrics.mk.injEq]
  norm_num
  decide

/-- C5: the reported average pitch is the mean of the strictly-positive
entries of the pitch-track matrix; with no strictly-positive entry it is
exactly 0 (the total ℚ-valued function cannot produce NaN or raise); and a
successful response's `pitch` field is `avePitch` of the matrix returned by
the pitch tracker. -/
theorem avePitch_spec (mat : List (List ℚ)) (env : Env) (b : SuccessBody) :
    (positiveEntries mat = [] → avePitch mat = 0)
    ∧ (positiveEntries mat ≠ [] →
        avePitch mat = (positiveEntries mat).sum / (positiveEntries mat).length)
    ∧ ((analyze env).response = HttpResponse.ok b →
        ∃ f, env.loadFeatures = Except.ok f ∧
          b.results_results.pitch = avePitch f.pitchMatrix) := by
  refine ⟨?_, ?_, ?_⟩
  · intro h
    simp [avePitch, h]
  · intro h
    rw [avePitch]
    simp only [List.isEmpty_iff]
    rw [if_neg h]
  · intro h
    rw [analyze_ok_iff, analyzeBody_ok_iff] at h
    obtain ⟨mo, third, events, f, -, -, -, -, -, hf, -, hb⟩ := h
    exact ⟨f, hf, by rw [hb]⟩

/-- C5 witness: the all-zero matrix has no positive entry and reports 0. -/
theorem avePitch_spec_witness : avePitch [[0, 0], [0]] = 0 :=
  (avePitch_spec [[0, 0], [0]] envOk bodyOk).1 (by decide)

/-- C6: with upload, decode and predict succeeding, a model output that is
not a sequence of at least three elements makes the handler return the 500
response whose detail carries the descriptive value error, exactly like any
other failure; a well-shaped output has its third element taken as the raw
note-event sequence. -/
theorem modelOutput_shape_check (env : Env) (mo : ModelOutput)
    (hc : env.copyUpload = Except.ok ())
    (hd : env.decodeNormalize = Except.ok ())
    (hp : env.predictResult = Except.ok mo) :
    (¬(mo.isSeq = true ∧ 3 ≤ mo.elems.length) →
      (analyze env).response =
        HttpResponse.error 500 "Analysis failed: Unexpected prediction output format")
    ∧ (∀ h : mo.isSeq = true ∧ 3 ≤ mo.elems.length,
        validateModelOutput mo = Except.ok (mo.elems.get ⟨2, h.2⟩)) := by
  constructor
  · intro h
    have hv : validateModelOutput mo = Except.error "Unexpected prediction output format" := by
      rw [validateModelOutput, dif_neg h]
    have hb : analyzeBody env = Except.error "Unexpected prediction output format" := by
      rw [analyzeBody, hc, hd, hp]
      simp only [Bind.bind, Except.bind, hv]
    have h2 := analyze_error_response env _ hb
    have hstr : "Analysis failed: " ++ "Unexpected prediction output format" =
        "Analysis failed: Unexpected prediction output format" := rfl
    rwa [hstr] at h2
  · intro h
    rw [validateModelOutput, dif_pos h]

/-- A request on which the model returns an empty tuple. -/
def envBadShape : Env :=
  { copyUpload := Except.ok ()
    decodeNormalize := Except.ok ()
    predictResult := Except.ok ⟨true, []⟩
    loadFeatures := Except.ok featuresOk
    savePlot := Except.ok ()
    visHex := "00ff" }

/-- C6 witness: an empty tuple from the model produces the descriptive 500. -/
theorem modelOutput_shape_check_witness :
    (analyze envBadShape).response =
      HttpResponse.error 500 "Analysis failed: Unexpected prediction output format" :=
  (modelOutput_shape_check envBadShape ⟨true, []⟩ rfl rfl rfl).1 (by simp)

/-- C7: whenever any stage of the try-block raises with message `m`, the
handler returns status 500 with detail `Analysis failed: ` ++ `m` — a
non-empty string containing the underlying error text. -/
theorem handler_error_500 (env : Env) (m : String)
    (h : analyzeBody env = Except.error m) :
    (analyze env).response = HttpResponse.error 500 ("Analysis failed: " ++ m)
    ∧ ("Analysis failed: " ++ m) ≠ ""
    ∧ ∃ pre post : String, "Analysis failed: " ++ m = pre ++ m ++ post := by
  refine ⟨analyze_error_response env m h, ?_, ⟨"Analysis failed: ", "", ?_⟩⟩
  · intro hemp
    have hlen := congrArg String.length hemp
    rw [String.length_append] at hlen
    have h17 : ("Analysis failed: ").length = 17 := rfl
    have h0 : ("").length = 0 := rfl
    rw [h17, h0] at hlen
    omega
  · rw [String.append_empty]

/-- A request whose decode/normalize stage raises. -/
def envDecodeFail : Env :=
  { copyUpload := Except.ok ()
    decodeNormalize := Except.error "could not decode audio"
    predictResult := Except.ok ⟨true, []⟩
    loadFeatures := Except.ok featuresOk
    savePlot := Except.ok ()
    visHex := "0a1b" }

/-- C7 witness: a failing decode stage produces the 500 with its message. -/
theorem handler_error_500_witness :
    (analyze envDecodeFail).response =
      HttpResponse.error 500 ("Analysis failed: " ++ "could not decode audio") :=
  (handler_error_500 envDecodeFail "could not decode audio" rfl).1

/-- A request whose upload copy (`shutil.copyfileobj`) raises: the temp file
has already been created by `NamedTemporaryFile(delete=False)`, but
`temp_path = tmp.name` (app.py line 54) is never reached. -/
def envSaveFail : Env :=
  { copyUpload := Except.error "client disconnected during upload"
    decodeNormalize := Except.ok ()
    predictResult :=
      Except.ok ⟨true, [PredictElem.other, PredictElem.other, PredictElem.events []]⟩
    loadFeatures := Except.ok featuresOk
    savePlot := Except.ok ()
    visHex := "c0ffee" }

/-- C8: when the upload copy itself raises, `temp_path` is still `None`, the
`finally` clause at app.py lines 133-136 skips the removal, and the request
leaves the temporary file behind (while still returning the 500); on any
request whose copy succeeds the file is removed on every exit path. -/
theorem tempfile_cleanup (env : Env) :
    (analyze envSaveFail).tempFileLeft = true
    ∧ (analyze envSaveFail).response =
        HttpResponse.error 500 ("Analysis failed: " ++ "client disconnected during upload")
    ∧ (env.copyUpload = Except.ok () → (analyze env).tempFileLeft = false) := by
  refine ⟨rfl, rfl, ?_⟩
  intro h
  cases hb : analyzeBody env <;> simp [analyze, h, hb]

/-- C8 witness: on the all-success request the temp file is removed. -/
theorem tempfile_cleanup_witness : (analyze envOk).tempFileLeft = false :=
  (tempfile_cleanup envOk).2.2 rfl

/-- C9: a 200 response carries the metrics record — tempo, duration,
sample rate, zero crossings, spectral centroid/bandwidth/rolloff, onset
strength, pitch — double-nested under `results.results` with the detected
notes as its `notes` field, and a top-level `visualization` of the form
`/static/plots/<hex>.png` built from the request's random hex identifier. -/
theorem success_response_shape (env : Env) (b : SuccessBody)
    (h : (analyze env).response = HttpResponse.ok b)
    (hhex : isHexDigits env.visHex = true) :
    b.visualization = "/static/plots/" ++ env.visHex ++ ".png"
    ∧ (∃ hex : String, isHexDigits hex = true ∧
        b.visualization = "/static/plots/" ++ hex ++ ".png")
    ∧ (∃ f : LibrosaFeatures, ∃ events : List RawNoteEvent,
        env.loadFeatures = Except.ok f ∧
        b.results_results =
          { tempo := f.tempo
            duration := (f.signalLen : ℚ) / 22050
            sample_rate := 22050
            zero_crossings := f.zero_crossings
            spectral_centroid := f.spectral_centroid
            spectral_bandwidth := f.spectral_bandwidth
            spectral_rolloff := f.spectral_rolloff
            onset_strength := f.onset_strength
            pitch := avePitch f.pitchMatrix
            notes := detectNotes events }) := by
  rw [analyze_ok_iff, analyzeBody_ok_iff] at h
  obtain ⟨mo, third, events, f, -, -, -, -, -, hf, -, hb⟩ := h
  subst hb
  exact ⟨rfl, ⟨env.visHex, hhex, rfl⟩, f, events, hf, rfl⟩

/-- C9 witness: the concrete successful run has the documented shape. -/
theorem success_response_shape_witness :
    bodyOk.visualization = "/static/plots/" ++ envOk.visHex ++ ".png" :=
  (success_response_shape envOk bodyOk analyze_envOk (by decide)).1

/-- C10: a negative-pitch event that passes the predicate still yields a note:
`int()` truncation maps any pitch in (-1, 0) to 0 and differs from the floor
on negative non-integer pitch (it is floor + 1 there), and the converter is
well-defined on non-positive MIDI numbers — 0 ↦ "C-1", -1 ↦ "B-2"; e.g. the
event (0, 1, -0.5, 1, _) produces the note (0, 1, 0, "C-1", 1). -/
theorem negative_pitch_handling :
    (∀ q : ℚ, -1 < q → q < 0 → int_trunc q = 0)
    ∧ (∀ q : ℚ, q < 0 → (∀ n : ℤ, (n : ℚ) ≠ q) →
        int_trunc q = ⌊q⌋ + 1 ∧ int_trunc q ≠ ⌊q⌋)
    ∧ midi_to_note_name 0 = "C-1"
    ∧ midi_to_note_name (-1) = "B-2"
    ∧ detectNotes [⟨0, 1, -1/2, 1, []⟩] = [⟨0, 1, 0, "C-1", 1⟩] := by
  refine ⟨?_, ?_, by decide, by decide, ?_⟩
  · intro q h1 h2
    rw [int_trunc, if_neg (not_le.mpr h2)]
    have hup : ⌈q⌉ ≤ 0 := by
      rw [show (0 : ℤ) = ((0 : ℤ)) from rfl, Int.ceil_le]
      push_cast
      linarith
    have hlo : (-1 : ℤ) < ⌈q⌉ := by
      rw [Int.lt_ceil]
      push_cast
      linarith
    omega
  · intro q hneg hni
    rw [int_trunc, if_neg (not_le.mpr hneg)]
    have hlt : (⌊q⌋ : ℚ) < q := lt_of_le_of_ne (Int.floor_le q) (hni ⌊q⌋)
    have h1 : ⌊q⌋ < ⌈q⌉ := Int.lt_ceil.mpr hlt
    have h2 : ⌈q⌉ ≤ ⌊q⌋ + 1 := Int.ceil_le_floor_add_one q
    omega
  · have hp : passesFilter ⟨0, 1, -1/2, 1, []⟩ = true := by norm_num [passesFilter]
    have ht : int_trunc (-1/2) = 0 := by norm_num [int_trunc, Int.ceil_eq_iff]
    have hn : midi_to_note_name 0 = "C-1" := by decide
    rw [detectNotes_eq_filter_map]
    simp only [List.filter_cons, hp, if_true, List.filter_nil, List.map,
      formatNote, ht, hn]

/-- C10 witness: truncation of -0.5 is 0, not its floor -1. -/
theorem negative_pitch_handling_witness :
    int_trunc (-1/2) = 0 ∧ int_trunc (-1/2) ≠ ⌊(-1/2 : ℚ)⌋ :=
  ⟨negative_pitch_handling.1 (-1/2) (by norm_num) (by norm_num),
   (negative_pitch_handling.2.1 (-1/2) (by norm_num)
     (by
       intro n hn
       have h3 : ((n * 2 : ℤ) : ℚ) = ((-1 : ℤ) : ℚ) := by push_cast; rw [hn]; ring
       have h4 : (n * 2 : ℤ) = -1 := by exact_mod_cast h3
       omega)).2⟩
